import Mathlib

/-!
Shallow embedding of `cmd/puppeth/genesis.go`: the chain-specification
translator converting a go-ethereum genesis block (the canonical genesis
model) into the Aleth, Parity and PyEthereum chain-spec formats.

Modelling conventions:
* Go `*big.Int` block numbers become `Option Nat` (`none` = nil pointer);
  calling `.Uint64()` on a nil pointer panics in Go, modelled by the
  `BuildErr.nilDereference` outcome.
* Go `uint64` values become `Nat`; the `big.Int.Uint64` truncation is
  `% 2^64`.
* 20-byte addresses become `Nat`; `common.BytesToAddress([]byte{b})`
  left-pads, so the single-byte precompile address `b` is the number `b`.
* Go maps with address keys become functions `Nat → Option _`
  (extensionally equal to the map; the source never iterates these maps).
* The string-keyed reward/bomb-delay maps are keyed here by the numeric
  block value; `common.EncodeBig` is an injective codec, so Go-map
  insertion on encoded keys coincides with insertion on numbers, modelled
  on association lists with replace-or-append semantics.
* `Config.Ethash` (a pointer to the ethash engine configuration) is
  modelled by the flag `ethash : Bool` (`true` = non-nil).
* `ChainID` and allocation balances are required fields of the canonical
  model (spec section 3); every successful Format A/B build dereferences
  them, so they are `Nat`/`Int` rather than options.
-/

namespace PuppethGenesis

/-- Outcomes of a builder other than a document: the two `errors.New`
errors of the source, plus `nilDereference` modelling a Go nil-pointer
panic (calling `Uint64()` on a nil `*big.Int`). -/
inductive BuildErr where
  | unsupportedEngine
  | invalidForkDependency
  | nilDereference
  deriving Repr, DecidableEq

/-- `core.GenesisAccount` restricted to the fields the translator reads:
prefunded balance and starting nonce. -/
structure GenesisAccount where
  balance : Int
  nonce : Nat
  deriving Repr, DecidableEq

/-- The fork-schedule and engine part of `params.ChainConfig` read by the
translator. Fork blocks are optional (`nil` = fork not scheduled). -/
structure GenesisConfig where
  ethash : Bool
  chainID : Nat
  homesteadBlock : Option Nat
  eip150Block : Option Nat
  eip155Block : Option Nat
  eip158Block : Option Nat
  byzantiumBlock : Option Nat
  constantinopleBlock : Option Nat
  petersburgBlock : Option Nat
  istanbulBlock : Option Nat
  deriving Repr, DecidableEq

/-- `core.Genesis`: the canonical genesis model. Header fields the
translator copies opaquely are numbers / lists of bytes. -/
structure Genesis where
  config : GenesisConfig
  nonce : Nat
  timestamp : Nat
  extraData : List Nat
  gasLimit : Nat
  difficulty : Option Int
  mixhash : Nat
  coinbase : Nat
  parentHash : Nat
  alloc : List (Nat × GenesisAccount)
  deriving Repr, DecidableEq

/-- `big.Int.Uint64` on a non-nil pointer: truncation to 64 bits. -/
def toUint64 (n : Nat) : Nat := n % 2 ^ 64

/-! Protocol constants consumed from the external `params` and `ethash`
packages (values of the upstream go-ethereum constants; the claims do not
depend on the exact numbers). -/

def maximumExtraDataSize : Nat := 32
def minGasLimit : Nat := 5000
def gasLimitBoundDivisor : Nat := 1024
def minimumDifficulty : Nat := 131072
def difficultyBoundDivisor : Nat := 2048
def durationLimit : Nat := 13
def maxCodeSize : Nat := 24576
def frontierBlockReward : Nat := 5 * 10 ^ 18
def byzantiumBlockReward : Nat := 3 * 10 ^ 18
def constantinopleBlockReward : Nat := 2 * 10 ^ 18
/-- `math.MaxInt64`. -/
def maxInt64 : Nat := 2 ^ 63 - 1

/-! ## Format A: the Aleth chain specification -/

/-- `alethGenesisSpecLinearPricing`. -/
structure AlethLinearPricing where
  base : Nat
  word : Nat
  deriving Repr, DecidableEq

/-- `alethGenesisSpecBuiltin`: a precompiled contract definition. -/
structure AlethBuiltin where
  name : String
  startingBlock : Option Nat
  linear : Option AlethLinearPricing
  deriving Repr, DecidableEq

/-- `alethGenesisSpecAccount`: prefunded account and/or precompile.
The Go zero value has nil balance, zero nonce and nil precompile. -/
structure AlethAccount where
  balance : Option Int := none
  nonce : Nat := 0
  precompiled : Option AlethBuiltin := none
  deriving Repr, DecidableEq

/-- The `Params` block of `alethGenesisSpec`. -/
structure AlethParams where
  accountStartNonce : Nat
  maximumExtraDataSize : Nat
  homesteadForkBlock : Option Nat
  daoHardforkBlock : Nat
  eip150ForkBlock : Option Nat
  eip158ForkBlock : Option Nat
  byzantiumForkBlock : Option Nat
  constantinopleForkBlock : Option Nat
  constantinopleFixForkBlock : Option Nat
  istanbulForkBlock : Option Nat
  minGasLimit : Nat
  maxGasLimit : Nat
  tieBreakingGas : Bool
  gasLimitBoundDivisor : Nat
  minimumDifficulty : Nat
  difficultyBoundDivisor : Nat
  durationLimit : Nat
  blockReward : Nat
  networkID : Nat
  chainID : Nat
  allowFutureBlocks : Bool
  deriving Repr, DecidableEq

/-- The `Genesis` block-header section of `alethGenesisSpec`. -/
structure AlethGenesisHeader where
  nonce : Nat
  difficulty : Option Int
  mixHash : Nat
  author : Nat
  timestamp : Nat
  parentHash : Nat
  extraData : List Nat
  gasLimit : Nat
  deriving Repr, DecidableEq

/-- `alethGenesisSpec`: the Format A document. -/
structure AlethGenesisSpec where
  sealEngine : String
  params : AlethParams
  genesis : AlethGenesisHeader
  accounts : Nat → Option AlethAccount

/-- `alethGenesisSpec.setPrecompile`: lazily creates the account at the
single-byte address when absent, then wholesale-replaces its
`Precompiled` field, leaving balance and nonce as they were. -/
def setPrecompileA (accounts : Nat → Option AlethAccount) (address : Nat)
    (data : AlethBuiltin) : Nat → Option AlethAccount := fun a =>
  if a = address then
    some { (accounts address).getD {} with precompiled := some data }
  else accounts a

/-- `alethGenesisSpec.setAccount`: lazily creates the account when
absent, then overwrites its balance and nonce from the allocation
entry (the precompile field is untouched). -/
def setAccountA (accounts : Nat → Option AlethAccount) (address : Nat)
    (account : GenesisAccount) : Nat → Option AlethAccount := fun a =>
  if a = address then
    some { (accounts address).getD {} with
            balance := some account.balance, nonce := account.nonce }
  else accounts a

/-- The `for address, account := range genesis.Alloc` loop of
`newAlethGenesisSpec`, starting from the empty (nil) accounts map. -/
def alethAllocAccounts (alloc : List (Nat × GenesisAccount)) :
    Nat → Option AlethAccount :=
  alloc.foldl (fun m p => setAccountA m p.1 p.2) (fun _ => none)

/-- The four unconditional precompiles of `newAlethGenesisSpec`. -/
def alethFrontierPrecompiles (accounts : Nat → Option AlethAccount) :
    Nat → Option AlethAccount :=
  setPrecompileA (setPrecompileA (setPrecompileA (setPrecompileA accounts
    1 { name := "ecrecover", startingBlock := none,
        linear := some { base := 3000, word := 0 } })
    2 { name := "sha256", startingBlock := none,
        linear := some { base := 60, word := 12 } })
    3 { name := "ripemd160", startingBlock := none,
        linear := some { base := 600, word := 120 } })
    4 { name := "identity", startingBlock := none,
        linear := some { base := 15, word := 3 } }

/-- The Byzantium-phase definition at address 5. -/
def alethByzantium5 (byzantium : Nat) : AlethBuiltin :=
  { name := "modexp", startingBlock := some byzantium, linear := none }

/-- The Byzantium-phase definition at address 6 (linear pricing). -/
def alethByzantium6 (byzantium : Nat) : AlethBuiltin :=
  { name := "alt_bn128_G1_add", startingBlock := some byzantium,
    linear := some { base := 500, word := 0 } }

/-- The Byzantium-phase definition at address 7 (linear pricing). -/
def alethByzantium7 (byzantium : Nat) : AlethBuiltin :=
  { name := "alt_bn128_G1_mul", startingBlock := some byzantium,
    linear := some { base := 40000, word := 0 } }

/-- The Byzantium-phase definition at address 8. -/
def alethByzantium8 (byzantium : Nat) : AlethBuiltin :=
  { name := "alt_bn128_pairing_product", startingBlock := some byzantium,
    linear := none }

/-- The Byzantium-gated precompiles (addresses 5-8) of
`newAlethGenesisSpec`, `num` being the Byzantium block. -/
def alethByzantiumPrecompiles (accounts : Nat → Option AlethAccount)
    (num : Nat) : Nat → Option AlethAccount :=
  setPrecompileA (setPrecompileA (setPrecompileA (setPrecompileA accounts
    5 (alethByzantium5 num))
    6 (alethByzantium6 num))
    7 (alethByzantium7 num))
    8 (alethByzantium8 num)

/-- The Istanbul-phase replacement definition at address 6 (Aleth
hardcodes the gas policy, so no linear pricing). -/
def alethIstanbul6 (byzantium : Nat) : AlethBuiltin :=
  { name := "alt_bn128_G1_add", startingBlock := some byzantium,
    linear := none }

/-- The Istanbul-phase replacement definition at address 7. -/
def alethIstanbul7 (byzantium : Nat) : AlethBuiltin :=
  { name := "alt_bn128_G1_mul", startingBlock := some byzantium,
    linear := none }

/-- The Istanbul-phase new precompile at address 9. -/
def alethIstanbul9 (istanbul : Nat) : AlethBuiltin :=
  { name := "blake2_compression", startingBlock := some istanbul,
    linear := none }

/-- The Istanbul-gated `setPrecompile` calls of `newAlethGenesisSpec`:
overwrite addresses 6 and 7, add address 9. -/
def alethIstanbulPrecompiles (accounts : Nat → Option AlethAccount)
    (byzantium istanbul : Nat) : Nat → Option AlethAccount :=
  setPrecompileA (setPrecompileA (setPrecompileA accounts
    6 (alethIstanbul6 byzantium))
    7 (alethIstanbul7 byzantium))
    9 (alethIstanbul9 istanbul)

/-- The params/genesis sections of the Aleth document: defaults, the
seven optional fork blocks copied verbatim, protocol constants and the
header fields of the canonical model. -/
def mkAlethSpec (g : Genesis) (accounts : Nat → Option AlethAccount) :
    AlethGenesisSpec :=
  { sealEngine := "Ethash"
    params :=
      { accountStartNonce := 0
        tieBreakingGas := false
        allowFutureBlocks := false
        daoHardforkBlock := 0
        homesteadForkBlock := g.config.homesteadBlock
        eip150ForkBlock := g.config.eip150Block
        eip158ForkBlock := g.config.eip158Block
        byzantiumForkBlock := g.config.byzantiumBlock
        constantinopleForkBlock := g.config.constantinopleBlock
        constantinopleFixForkBlock := g.config.petersburgBlock
        istanbulForkBlock := g.config.istanbulBlock
        networkID := toUint64 g.config.chainID
        chainID := toUint64 g.config.chainID
        maximumExtraDataSize := maximumExtraDataSize
        minGasLimit := minGasLimit
        maxGasLimit := maxInt64
        minimumDifficulty := minimumDifficulty
        difficultyBoundDivisor := difficultyBoundDivisor
        gasLimitBoundDivisor := gasLimitBoundDivisor
        durationLimit := durationLimit
        blockReward := frontierBlockReward }
    genesis :=
      { nonce := g.nonce
        mixHash := g.mixhash
        difficulty := g.difficulty
        author := g.coinbase
        timestamp := g.timestamp
        parentHash := g.parentHash
        extraData := g.extraData
        gasLimit := g.gasLimit }
    accounts := accounts }

/-- `newAlethGenesisSpec`: engine check, base document, allocation loop,
frontier precompiles, Byzantium-gated precompiles, then the
Istanbul/Byzantium dependency check and Istanbul-phase precompiles. -/
def newAlethGenesisSpec (network : String) (g : Genesis) :
    Except BuildErr AlethGenesisSpec :=
  if g.config.ethash = false then .error .unsupportedEngine else
  let base := alethFrontierPrecompiles (alethAllocAccounts g.alloc)
  let afterByzantium :=
    match g.config.byzantiumBlock with
    | some num => alethByzantiumPrecompiles base num
    | none => base
  match g.config.istanbulBlock with
  | some istanbul =>
    match g.config.byzantiumBlock with
    | none => .error .invalidForkDependency
    | some byzantium =>
      .ok (mkAlethSpec g
        (alethIstanbulPrecompiles afterByzantium byzantium istanbul))
  | none => .ok (mkAlethSpec g afterByzantium)

/-! ## Format B: the Parity chain specification -/

/-- Association-list insertion with Go-map semantics: replace the entry
with the given key if present, otherwise append. Models the string-keyed
Go maps (keys here are the numeric values behind `common.EncodeBig`,
which is injective). -/
def mapInsert (m : List (Nat × Nat)) (k v : Nat) : List (Nat × Nat) :=
  if m.any (fun p => p.1 = k) then
    m.map (fun p => if p.1 = k then (k, v) else p)
  else m ++ [(k, v)]

/-- Go-map lookup on the association list. -/
def mapLookup (m : List (Nat × Nat)) (k : Nat) : Option Nat :=
  (m.find? (fun p => p.1 = k)).map Prod.snd

/-- `parityChainSpecLinearPricing`. -/
structure ParityLinearPricing where
  base : Nat
  word : Nat
  deriving Repr, DecidableEq

/-- `parityChainSpecModExpPricing`. -/
structure ParityModExpPricing where
  divisor : Nat
  deriving Repr, DecidableEq

/-- `parityChainSepcAltBnPairingPricing`. -/
structure ParityAltBnPairingPricing where
  base : Nat
  pair : Nat
  deriving Repr, DecidableEq

/-- `parityChainSpecBlakePricing`. -/
structure ParityBlakePricing where
  gasPerRound : Nat
  deriving Repr, DecidableEq

/-- `parityChainSpecAltBnConstOperationPricing`. -/
structure ParityAltBnConstOperationPricing where
  price : Nat
  deriving Repr, DecidableEq

/-- `parityChainSpecPricing`: the flat pricing variant. -/
structure ParityStdPricing where
  linear : Option ParityLinearPricing := none
  modexp : Option ParityModExpPricing := none
  altBnPairing : Option ParityAltBnPairingPricing := none
  blake2F : Option ParityBlakePricing := none
  deriving Repr, DecidableEq

/-- `parityChainSpecAlternativePrice`. -/
structure ParityAlternativePrice where
  altBnConstOperationPrice : Option ParityAltBnConstOperationPricing := none
  altBnPairingPrice : Option ParityAltBnPairingPricing := none
  deriving Repr, DecidableEq

/-- `parityChainSpecVersionedPricing`: one version's price policy. -/
structure ParityVersionedPricing where
  price : Option ParityAlternativePrice := none
  info : String := ""
  deriving Repr, DecidableEq

/-- The dynamic `Pricing interface{}` field: either the flat
`parityChainSpecPricing` or the versioned pricing table keyed by block
number used at the Istanbul transition. -/
inductive ParityPricing where
  | std : ParityStdPricing → ParityPricing
  | versioned : List (Nat × ParityVersionedPricing) → ParityPricing
  deriving Repr, DecidableEq

/-- `parityChainSpecBuiltin`. -/
structure ParityBuiltin where
  name : String
  pricing : ParityPricing
  activateAt : Option Nat
  deriving Repr, DecidableEq

/-- `parityChainSpecAccount`; the Go zero value has zero balance and
nonce and a nil builtin. -/
structure ParityAccount where
  balance : Int := 0
  nonce : Nat := 0
  builtin : Option ParityBuiltin := none
  deriving Repr, DecidableEq

/-- The `Engine.Ethash.Params` section of `parityChainSpec`. -/
structure ParityEthashParams where
  minimumDifficulty : Nat
  difficultyBoundDivisor : Nat
  durationLimit : Nat
  blockReward : List (Nat × Nat)
  difficultyBombDelays : List (Nat × Nat)
  homesteadTransition : Nat
  eip100bTransition : Nat
  deriving Repr, DecidableEq

/-- The `Params` section of `parityChainSpec` (Go zero values are 0). -/
structure ParityParams where
  accountStartNonce : Nat := 0
  maximumExtraDataSize : Nat := 0
  minGasLimit : Nat := 0
  gasLimitBoundDivisor : Nat := 0
  networkID : Nat := 0
  chainID : Nat := 0
  maxCodeSize : Nat := 0
  maxCodeSizeTransition : Nat := 0
  eip98Transition : Nat := 0
  eip150Transition : Nat := 0
  eip160Transition : Nat := 0
  eip161abcTransition : Nat := 0
  eip161dTransition : Nat := 0
  eip155Transition : Nat := 0
  eip140Transition : Nat := 0
  eip211Transition : Nat := 0
  eip214Transition : Nat := 0
  eip658Transition : Nat := 0
  eip145Transition : Nat := 0
  eip1014Transition : Nat := 0
  eip1052Transition : Nat := 0
  eip1283Transition : Nat := 0
  eip1283DisableTransition : Nat := 0
  eip1283ReenableTransition : Nat := 0
  eip1344Transition : Nat := 0
  eip1884Transition : Nat := 0
  eip2028Transition : Nat := 0
  deriving Repr, DecidableEq

/-- The `Genesis` section of `parityChainSpec`. -/
structure ParityGenesisHeader where
  sealNonce : Nat
  sealMixHash : Nat
  difficulty : Option Int
  author : Nat
  timestamp : Nat
  parentHash : Nat
  extraData : List Nat
  gasLimit : Nat
  deriving Repr, DecidableEq

/-- `parityChainSpec`: the Format B document. -/
structure ParityChainSpec where
  name : String
  datadir : String
  engine : ParityEthashParams
  params : ParityParams
  genesis : ParityGenesisHeader
  nodes : List String
  accounts : Nat → Option ParityAccount

/-- `parityChainSpec.setPrecompile`: lazily creates the account at the
single-byte address when absent, then wholesale-replaces its `Builtin`
field, leaving balance and nonce as they were. -/
def setPrecompileP (accounts : Nat → Option ParityAccount) (address : Nat)
    (data : ParityBuiltin) : Nat → Option ParityAccount := fun a =>
  if a = address then
    some { (accounts address).getD {} with builtin := some data }
  else accounts a

/-- `parityChainSpec.setByzantium`: one reward entry and one bomb-delay
entry keyed by the Byzantium block, plus five transition fields. -/
def ParityChainSpec.setByzantium (spec : ParityChainSpec) (num : Nat) :
    ParityChainSpec :=
  let n := toUint64 num
  { spec with
    engine := { spec.engine with
      blockReward := mapInsert spec.engine.blockReward num byzantiumBlockReward
      difficultyBombDelays :=
        mapInsert spec.engine.difficultyBombDelays num 3000000
      eip100bTransition := n }
    params := { spec.params with
      eip140Transition := n
      eip211Transition := n
      eip214Transition := n
      eip658Transition := n } }

/-- `parityChainSpec.setConstantinople`: one reward entry and one
bomb-delay entry keyed by the Constantinople block, plus four
transition fields. -/
def ParityChainSpec.setConstantinople (spec : ParityChainSpec) (num : Nat) :
    ParityChainSpec :=
  let n := toUint64 num
  { spec with
    engine := { spec.engine with
      blockReward :=
        mapInsert spec.engine.blockReward num constantinopleBlockReward
      difficultyBombDelays :=
        mapInsert spec.engine.difficultyBombDelays num 2000000 }
    params := { spec.params with
      eip145Transition := n
      eip1014Transition := n
      eip1052Transition := n
      eip1283Transition := n } }

/-- `parityChainSpec.setConstantinopleFix`. -/
def ParityChainSpec.setConstantinopleFix (spec : ParityChainSpec)
    (num : Nat) : ParityChainSpec :=
  { spec with params :=
      { spec.params with eip1283DisableTransition := toUint64 num } }

/-- `parityChainSpec.setIstanbul`. -/
def ParityChainSpec.setIstanbul (spec : ParityChainSpec) (num : Nat) :
    ParityChainSpec :=
  { spec with params := { spec.params with
      eip1344Transition := toUint64 num
      eip1884Transition := toUint64 num
      eip2028Transition := toUint64 num
      eip1283ReenableTransition := toUint64 num } }

/-- The four unconditional precompiles of `newParityChainSpec`. -/
def parityFrontierPrecompiles (accounts : Nat → Option ParityAccount) :
    Nat → Option ParityAccount :=
  setPrecompileP (setPrecompileP (setPrecompileP (setPrecompileP accounts
    1 { name := "ecrecover", activateAt := none,
        pricing := .std { linear := some { base := 3000, word := 0 } } })
    2 { name := "sha256", activateAt := none,
        pricing := .std { linear := some { base := 60, word := 12 } } })
    3 { name := "ripemd160", activateAt := none,
        pricing := .std { linear := some { base := 600, word := 120 } } })
    4 { name := "identity", activateAt := none,
        pricing := .std { linear := some { base := 15, word := 3 } } }

/-- The Byzantium-phase definition at address 5. -/
def parityByzantium5 (byzantium : Nat) : ParityBuiltin :=
  { name := "modexp", activateAt := some byzantium,
    pricing := .std { modexp := some { divisor := 20 } } }

/-- The Byzantium-phase definition at address 6 (flat linear pricing). -/
def parityByzantium6 (byzantium : Nat) : ParityBuiltin :=
  { name := "alt_bn128_add", activateAt := some byzantium,
    pricing := .std { linear := some { base := 500, word := 0 } } }

/-- The Byzantium-phase definition at address 7 (flat linear pricing). -/
def parityByzantium7 (byzantium : Nat) : ParityBuiltin :=
  { name := "alt_bn128_mul", activateAt := some byzantium,
    pricing := .std { linear := some { base := 40000, word := 0 } } }

/-- The Byzantium-phase definition at address 8 (flat pairing pricing). -/
def parityByzantium8 (byzantium : Nat) : ParityBuiltin :=
  { name := "alt_bn128_pairing", activateAt := some byzantium,
    pricing := .std { altBnPairing := some { base := 100000, pair := 80000 } } }

/-- The Byzantium-gated precompiles (addresses 5-8) of
`newParityChainSpec`, `num` being the Byzantium block. -/
def parityByzantiumPrecompiles (accounts : Nat → Option ParityAccount)
    (num : Nat) : Nat → Option ParityAccount :=
  setPrecompileP (setPrecompileP (setPrecompileP (setPrecompileP accounts
    5 (parityByzantium5 num))
    6 (parityByzantium6 num))
    7 (parityByzantium7 num))
    8 (parityByzantium8 num)

/-- The Istanbul-phase replacement at address 6: versioned pricing with
the pre-fork price at block 0 and the post-fork price at the Istanbul
block. -/
def parityIstanbul6 (byzantium istanbul : Nat) : ParityBuiltin :=
  let pre : ParityVersionedPricing :=
    { price := some { altBnConstOperationPrice := some { price := 500 } } }
  let post : ParityVersionedPricing :=
    { price := some { altBnConstOperationPrice := some { price := 150 } } }
  { name := "alt_bn128_add", activateAt := some byzantium,
    pricing := .versioned [(0, pre), (istanbul, post)] }

/-- The Istanbul-phase replacement at address 7. -/
def parityIstanbul7 (byzantium istanbul : Nat) : ParityBuiltin :=
  let pre : ParityVersionedPricing :=
    { price := some { altBnConstOperationPrice := some { price := 40000 } } }
  let post : ParityVersionedPricing :=
    { price := some { altBnConstOperationPrice := some { price := 6000 } } }
  { name := "alt_bn128_mul", activateAt := some byzantium,
    pricing := .versioned [(0, pre), (istanbul, post)] }

/-- The Istanbul-phase replacement at address 8. -/
def parityIstanbul8 (byzantium istanbul : Nat) : ParityBuiltin :=
  let pre : ParityVersionedPricing :=
    { price := some { altBnPairingPrice := some { base := 100000, pair := 80000 } } }
  let post : ParityVersionedPricing :=
    { price := some { altBnPairingPrice := some { base := 45000, pair := 34000 } } }
  { name := "alt_bn128_pairing", activateAt := some byzantium,
    pricing := .versioned [(0, pre), (istanbul, post)] }

/-- The Istanbul-phase new precompile at address 9. -/
def parityIstanbul9 (istanbul : Nat) : ParityBuiltin :=
  { name := "blake2_f", activateAt := some istanbul,
    pricing := .std { blake2F := some { gasPerRound := 1 } } }

/-- The Istanbul-gated `setPrecompile` calls of `newParityChainSpec`:
overwrite addresses 6-8 with versioned pricing, add address 9. -/
def parityIstanbulPrecompiles (accounts : Nat → Option ParityAccount)
    (byzantium istanbul : Nat) : Nat → Option ParityAccount :=
  setPrecompileP (setPrecompileP (setPrecompileP (setPrecompileP accounts
    6 (parityIstanbul6 byzantium istanbul))
    7 (parityIstanbul7 byzantium istanbul))
    8 (parityIstanbul8 byzantium istanbul))
    9 (parityIstanbul9 istanbul)

/-- The `spec.Accounts` loop of `newParityChainSpec`: a fresh map filled
from the allocation table (`*account.Balance` is dereferenced; balances
are required fields of the canonical model). -/
def parityAllocAccounts (alloc : List (Nat × GenesisAccount)) :
    Nat → Option ParityAccount :=
  alloc.foldl
    (fun m p a =>
      if a = p.1 then
        some { balance := p.2.balance, nonce := p.2.nonce }
      else m a)
    (fun _ => none)

/-- The body of `newParityChainSpec` after the engine check and the
four unconditional `Uint64()` dereferences of the Homestead, EIP150,
EIP155 and EIP158 blocks (whose raw values are the last four
arguments): frontier constants and the block-0 reward seed; the four
conditional fork setters (`setIstanbul` runs before the dependency
check, exactly as in the source); remaining params, header and
accounts; the precompile phases with the Istanbul/Byzantium dependency
check. -/
def parityBuild (network : String) (g : Genesis) (bootnodes : List String)
    (homesteadB eip150B eip155B eip158B : Nat) :
    Except BuildErr ParityChainSpec :=
  let homestead := toUint64 homesteadB
  let eip150 := toUint64 eip150B
  let eip155 := toUint64 eip155B
  let eip158 := toUint64 eip158B
  let spec : ParityChainSpec :=
    { name := network
      datadir := network.toLower
      nodes := bootnodes
      engine :=
        { minimumDifficulty := minimumDifficulty
          difficultyBoundDivisor := difficultyBoundDivisor
          durationLimit := durationLimit
          blockReward := mapInsert [] 0 frontierBlockReward
          difficultyBombDelays := []
          homesteadTransition := homestead
          eip100bTransition := 0 }
      params := { eip150Transition := eip150
                  eip155Transition := eip155
                  eip160Transition := eip155
                  eip161abcTransition := eip158
                  eip161dTransition := eip158 }
      genesis :=
        { sealNonce := g.nonce
          sealMixHash := g.mixhash
          difficulty := g.difficulty
          author := g.coinbase
          timestamp := g.timestamp
          parentHash := g.parentHash
          extraData := g.extraData
          gasLimit := g.gasLimit }
      accounts := fun _ => none }
  let spec :=
    match g.config.byzantiumBlock with
    | some num => spec.setByzantium num
    | none => spec
  let spec :=
    match g.config.constantinopleBlock with
    | some num => spec.setConstantinople num
    | none => spec
  let spec :=
    match g.config.petersburgBlock with
    | some num => spec.setConstantinopleFix num
    | none => spec
  let spec :=
    match g.config.istanbulBlock with
    | some num => spec.setIstanbul num
    | none => spec
  let spec := { spec with params := { spec.params with
    maximumExtraDataSize := maximumExtraDataSize
    minGasLimit := minGasLimit
    gasLimitBoundDivisor := gasLimitBoundDivisor
    networkID := toUint64 g.config.chainID
    chainID := toUint64 g.config.chainID
    maxCodeSize := maxCodeSize
    maxCodeSizeTransition := 0
    eip98Transition := maxInt64 } }
  let accounts := parityFrontierPrecompiles (parityAllocAccounts g.alloc)
  let accounts :=
    match g.config.byzantiumBlock with
    | some num => parityByzantiumPrecompiles accounts num
    | none => accounts
  match g.config.istanbulBlock with
  | some istanbul =>
    match g.config.byzantiumBlock with
    | none => .error .invalidForkDependency
    | some byzantium =>
      .ok { spec with accounts :=
        parityIstanbulPrecompiles accounts byzantium istanbul }
  | none => .ok { spec with accounts := accounts }

/-- `newParityChainSpec`: the engine check, then the four unconditional
`Uint64()` dereferences of the Homestead/EIP150/EIP155/EIP158 blocks (a
nil `*big.Int` receiver panics in Go, modelled by `nilDereference`; the
source performs all four dereferences before any further failure point,
so one 4-way match is observably equivalent to Go's panic order), then
the rest of the construction (`parityBuild`). -/
def newParityChainSpec (network : String) (g : Genesis)
    (bootnodes : List String) : Except BuildErr ParityChainSpec :=
  if g.config.ethash = false then .error .unsupportedEngine else
  match g.config.homesteadBlock, g.config.eip150Block,
        g.config.eip155Block, g.config.eip158Block with
  | some homesteadB, some eip150B, some eip155B, some eip158B =>
    parityBuild network g bootnodes homesteadB eip150B eip155B eip158B
  | _, _, _, _ => .error .nilDereference

/-! ## Format C: the PyEthereum genesis specification -/

/-- `pyEthereumGenesisSpec`: the Format C document; header fields plus
the allocation table verbatim, no fork fields, no precompiles. -/
structure PyEthereumGenesisSpec where
  nonce : Nat
  timestamp : Nat
  extraData : List Nat
  gasLimit : Nat
  difficulty : Option Int
  mixhash : Nat
  coinbase : Nat
  alloc : List (Nat × GenesisAccount)
  parentHash : Nat
  deriving Repr, DecidableEq

/-- `newPyEthereumGenesisSpec`: engine check, then a verbatim copy of
the header fields and allocation table. -/
def newPyEthereumGenesisSpec (network : String) (g : Genesis) :
    Except BuildErr PyEthereumGenesisSpec :=
  if g.config.ethash = false then .error .unsupportedEngine
  else .ok
    { nonce := g.nonce
      timestamp := g.timestamp
      extraData := g.extraData
      gasLimit := g.gasLimit
      difficulty := g.difficulty
      mixhash := g.mixhash
      coinbase := g.coinbase
      alloc := g.alloc
      parentHash := g.parentHash }

/-! ## Projection helpers and concrete example models -/

/-- The precompiled-contract definition recorded at address `a` of a
Format A document. -/
def alethPrecompiledAt (s : AlethGenesisSpec) (a : Nat) :
    Option AlethBuiltin :=
  (s.accounts a).bind fun acct => acct.precompiled

/-- The builtin-contract definition recorded at address `a` of a
Format B document. -/
def parityBuiltinAt (s : ParityChainSpec) (a : Nat) :
    Option ParityBuiltin :=
  (s.accounts a).bind fun acct => acct.builtin

/-- A genesis model with fixed header fields, parameterized by the
config and the allocation table. -/
def exampleGenesis (c : GenesisConfig)
    (alloc : List (Nat × GenesisAccount)) : Genesis :=
  { config := c, nonce := 0, timestamp := 0, extraData := [],
    gasLimit := 5000, difficulty := some 131072, mixhash := 0,
    coinbase := 0, parentHash := 0, alloc := alloc }

/-- Ethash engine, Istanbul scheduled at 20, every other fork nil. -/
def configIstanbulOnly : GenesisConfig :=
  { ethash := true, chainID := 1234, homesteadBlock := none,
    eip150Block := none, eip155Block := none, eip158Block := none,
    byzantiumBlock := none, constantinopleBlock := none,
    petersburgBlock := none, istanbulBlock := some 20 }

/-- Ethash engine, every fork field nil. -/
def configNoForks : GenesisConfig :=
  { configIstanbulOnly with istanbulBlock := none }

/-- A non-ethash consensus engine. -/
def configNotEthash : GenesisConfig :=
  { configNoForks with ethash := false }

/-- Homestead/EIP150/EIP155/EIP158 scheduled at 0, major forks nil. -/
def configBaseOnly : GenesisConfig :=
  { configNoForks with
    homesteadBlock := some 0
    eip150Block := some 0
    eip155Block := some 0
    eip158Block := some 0 }

/-- Base forks at 0, Istanbul at 20, Byzantium nil. -/
def configBaseIstanbulOnly : GenesisConfig :=
  { configBaseOnly with istanbulBlock := some 20 }

/-- Base forks at 0, Byzantium 10, Constantinople 15, Istanbul 20. -/
def configAllForks : GenesisConfig :=
  { configBaseOnly with
    byzantiumBlock := some 10
    constantinopleBlock := some 15
    istanbulBlock := some 20 }

/-- The concrete-scenario config: chainID 1234, homestead 0,
byzantium 10, istanbul 20. -/
def configScenario : GenesisConfig :=
  { configIstanbulOnly with
    homesteadBlock := some 0
    byzantiumBlock := some 10 }

/-- The concrete-scenario genesis model: one allocation entry funding
address `0x…01` with balance 100. -/
def scenarioGenesis : Genesis :=
  exampleGenesis configScenario [(1, { balance := 100, nonce := 0 })]

/-- The all-forks genesis model with a nonempty allocation table. -/
def allForksGenesis : Genesis :=
  exampleGenesis configAllForks [(77, { balance := 9, nonce := 1 })]

/-- The no-forks genesis model (empty allocation). -/
def noForksGenesis : Genesis := exampleGenesis configNoForks []

/-- The Istanbul-without-Byzantium genesis model, all other forks nil. -/
def istOnlyGenesis : Genesis := exampleGenesis configIstanbulOnly []

/-- Istanbul without Byzantium, but with the four unconditionally
dereferenced fork blocks set. -/
def baseIstGenesis : Genesis := exampleGenesis configBaseIstanbulOnly []

/-- Base forks only, with a nonempty allocation table. -/
def baseOnlyGenesis : Genesis :=
  exampleGenesis configBaseOnly [(77, { balance := 9, nonce := 1 })]

/-- A placeholder Format A document, used only as the `Option.getD`
default when naming a builder's successful result. -/
def emptyAlethSpec : AlethGenesisSpec :=
  mkAlethSpec noForksGenesis (fun _ => none)

/-- The Format A document built from the concrete-scenario model. -/
def scenarioAlethDoc : AlethGenesisSpec :=
  (newAlethGenesisSpec "net" scenarioGenesis).toOption.getD emptyAlethSpec

/-- A placeholder Format B document, used only as the `Option.getD`
default when naming a builder's successful result. -/
def emptyParitySpec : ParityChainSpec :=
  { name := "", datadir := "", nodes := []
    engine :=
      { minimumDifficulty := 0, difficultyBoundDivisor := 0,
        durationLimit := 0, blockReward := [], difficultyBombDelays := [],
        homesteadTransition := 0, eip100bTransition := 0 }
    params := {}
    genesis :=
      { sealNonce := 0, sealMixHash := 0, difficulty := none, author := 0,
        timestamp := 0, parentHash := 0, extraData := [], gasLimit := 0 }
    accounts := fun _ => none }

/-- The Format B document built from the all-forks model. -/
def allForksParityDoc : ParityChainSpec :=
  (newParityChainSpec "net" allForksGenesis []).toOption.getD emptyParitySpec

/-- A concrete Format A accounts map holding one prefunded account at
address 1 (a precompile address). -/
def exampleAlethAccounts : Nat → Option AlethAccount := fun a =>
  if a = 1 then some { balance := some 100, nonce := 7, precompiled := none }
  else none

/-- A concrete Format B accounts map holding one prefunded account at
address 1 (a precompile address). -/
def exampleParityAccounts : Nat → Option ParityAccount := fun a =>
  if a = 1 then some { balance := 100, nonce := 7, builtin := none }
  else none

/-! ## Structural lemmas -/

/-- `setAccount` never touches the precompiled field of any entry. -/
theorem setAccountA_precompiled (m : Nat → Option AlethAccount)
    (address : Nat) (account : GenesisAccount) (a : Nat) :
    ((setAccountA m address account a).bind fun acct => acct.precompiled)
      = ((m a).bind fun acct => acct.precompiled) := by
  unfold setAccountA
  by_cases h : a = address
  · subst h; cases hm : m a <;> simp [hm]
  · simp [h]

/-- Folding `setAccount` over an allocation table preserves the absence
of precompiled definitions. -/
theorem alethFold_precompiled (alloc : List (Nat × GenesisAccount)) :
    ∀ (m : Nat → Option AlethAccount),
      (∀ b, ((m b).bind fun acct => acct.precompiled) = none) →
      ∀ a, (((alloc.foldl (fun m p => setAccountA m p.1 p.2) m) a).bind
              fun acct => acct.precompiled) = none := by
  induction alloc with
  | nil => intro m hm a; simpa using hm a
  | cons p t ih =>
      intro m hm a
      simp only [List.foldl_cons]
      exact ih _ (fun b => by rw [setAccountA_precompiled]; exact hm b) a

/-- The accounts map built from the allocation table alone holds no
precompiled definitions. -/
theorem alethAllocAccounts_precompiled (alloc : List (Nat × GenesisAccount))
    (a : Nat) :
    ((alethAllocAccounts alloc a).bind fun acct => acct.precompiled)
      = none := by
  unfold alethAllocAccounts
  exact alethFold_precompiled alloc (fun _ => none) (fun _ => rfl) a

/-- Folding the Format B allocation loop preserves the absence of
builtin definitions. -/
theorem parityFold_builtin (alloc : List (Nat × GenesisAccount)) :
    ∀ (m : Nat → Option ParityAccount),
      (∀ b, ((m b).bind fun acct => acct.builtin) = none) →
      ∀ a, (((alloc.foldl
              (fun m p a =>
                if a = p.1 then
                  some { balance := p.2.balance, nonce := p.2.nonce }
                else m a) m) a).bind fun acct => acct.builtin) = none := by
  induction alloc with
  | nil => intro m hm a; simpa using hm a
  | cons p t ih =>
      intro m hm a
      simp only [List.foldl_cons]
      refine ih _ (fun b => ?_) a
      by_cases hpb : b = p.1
      · simp [hpb]
      · simpa [hpb] using hm b

/-- The Format B accounts map built from the allocation table alone
holds no builtin definitions. -/
theorem parityAllocAccounts_builtin (alloc : List (Nat × GenesisAccount))
    (a : Nat) :
    ((parityAllocAccounts alloc a).bind fun acct => acct.builtin)
      = none := by
  unfold parityAllocAccounts
  exact parityFold_builtin alloc (fun _ => none) (fun _ => rfl) a

/-- Every document the Format A builder returns has the
`mkAlethSpec g` shape for some accounts map. -/
theorem newAleth_ok_shape (network : String) (g : Genesis)
    (s : AlethGenesisSpec) (h : newAlethGenesisSpec network g = .ok s) :
    ∃ accounts, s = mkAlethSpec g accounts := by
  unfold newAlethGenesisSpec at h
  rcases he : g.config.ethash with _ | _
  · simp [he] at h
  · rcases hi : g.config.istanbulBlock with _ | ist <;>
      rcases hb : g.config.byzantiumBlock with _ | byz <;>
      simp [he, hi, hb] at h <;>
      exact ⟨_, h.symm⟩

/-- A successful Format B build implies the engine was ethash, the four
unconditionally dereferenced fork blocks were set, and the result comes
from `parityBuild` on their values. -/
theorem newParity_ok_shape (network : String) (g : Genesis)
    (bootnodes : List String) (s : ParityChainSpec)
    (h : newParityChainSpec network g bootnodes = .ok s) :
    ∃ hm e150 e155 e158, g.config.homesteadBlock = some hm ∧
      g.config.eip150Block = some e150 ∧ g.config.eip155Block = some e155 ∧
      g.config.eip158Block = some e158 ∧ g.config.ethash = true ∧
      parityBuild network g bootnodes hm e150 e155 e158 = .ok s := by
  unfold newParityChainSpec at h
  rcases he : g.config.ethash with _ | _
  · simp [he] at h
  · rcases h0 : g.config.homesteadBlock with _ | hm <;>
      rcases h1 : g.config.eip150Block with _ | e150 <;>
      rcases h2 : g.config.eip155Block with _ | e155 <;>
      rcases h3 : g.config.eip158Block with _ | e158 <;>
      simp [he, h0, h1, h2, h3] at h <;>
      exact ⟨hm, e150, e155, e158, rfl, rfl, rfl, rfl, rfl, h⟩

/-! ## Claim theorems -/

/-- C5: for every genesis model whose consensus engine is not the
supported ethash engine, all three builders return the
unsupported-consensus-engine error and no document. The statement
quantifies over arbitrary fork fields — including ones whose
dereference would otherwise crash the Format B builder — which captures
that the engine check happens before any fork field is read. -/
theorem unsupported_engine_rejected (network : String) (g : Genesis)
    (bootnodes : List String) (h : g.config.ethash = false) :
    newAlethGenesisSpec network g = .error .unsupportedEngine ∧
    newParityChainSpec network g bootnodes = .error .unsupportedEngine ∧
    newPyEthereumGenesisSpec network g = .error .unsupportedEngine := by
  refine ⟨?_, ?_, ?_⟩ <;>
    simp [newAlethGenesisSpec, newParityChainSpec,
      newPyEthereumGenesisSpec, h]

/-- Witness for C5 at a concrete non-ethash genesis model. -/
theorem unsupported_engine_rejected_witness :
    (exampleGenesis configNotEthash []).config.ethash = false ∧
    (newAlethGenesisSpec "net" (exampleGenesis configNotEthash [])
        = .error .unsupportedEngine ∧
      newParityChainSpec "net" (exampleGenesis configNotEthash []) []
        = .error .unsupportedEngine ∧
      newPyEthereumGenesisSpec "net" (exampleGenesis configNotEthash [])
        = .error .unsupportedEngine) :=
  ⟨rfl, unsupported_engine_rejected "net" (exampleGenesis configNotEthash [])
    [] rfl⟩

/-- C6: the concrete scenario (chainID 1234, homestead 0, byzantium 10,
istanbul 20, one allocation entry funding address `0x…01` with 100):
the Format A document records balance 100 at that address, the
precompile "modexp" starting at block 10 at address 5, and the
precompile "blake2_compression" starting at block 20 at address 9. -/
theorem aleth_concrete_scenario :
    (newAlethGenesisSpec "net" scenarioGenesis).toOption.map (fun s =>
        ((s.accounts 1).bind (fun acct => acct.balance),
         (alethPrecompiledAt s 5).map (fun bn => (bn.name, bn.startingBlock)),
         (alethPrecompiledAt s 9).map (fun bn => (bn.name, bn.startingBlock))))
      = some (some 100,
              some ("modexp", some 10),
              some ("blake2_compression", some 20)) := by decide

/-- C7: every Format A document has account start nonce 0,
tie-breaking-gas flag false, allow-future-blocks flag false and DAO
hardfork block 0, independent of the genesis model. -/
theorem aleth_fixed_defaults (network : String) (g : Genesis)
    (s : AlethGenesisSpec) (h : newAlethGenesisSpec network g = .ok s) :
    s.params.accountStartNonce = 0 ∧ s.params.tieBreakingGas = false ∧
    s.params.allowFutureBlocks = false ∧ s.params.daoHardforkBlock = 0 := by
  obtain ⟨accounts, rfl⟩ := newAleth_ok_shape network g s h
  exact ⟨rfl, rfl, rfl, rfl⟩

/-- Witness for C7 at the concrete scenario model. -/
theorem aleth_fixed_defaults_witness :
    scenarioAlethDoc.params.accountStartNonce = 0 ∧
    scenarioAlethDoc.params.tieBreakingGas = false ∧
    scenarioAlethDoc.params.allowFutureBlocks = false ∧
    scenarioAlethDoc.params.daoHardforkBlock = 0 :=
  aleth_fixed_defaults "net" scenarioGenesis scenarioAlethDoc (by rfl)

/-- C8: for every genesis model accepted by the Format A builder, each
of the seven recognized optional fork fields of the document equals the
model's field verbatim: present iff the model's field is non-nil, with
the same block number, no normalization or clamping. -/
theorem aleth_fork_blocks_verbatim (network : String) (g : Genesis)
    (s : AlethGenesisSpec) (h : newAlethGenesisSpec network g = .ok s) :
    s.params.homesteadForkBlock = g.config.homesteadBlock ∧
    s.params.eip150ForkBlock = g.config.eip150Block ∧
    s.params.eip158ForkBlock = g.config.eip158Block ∧
    s.params.byzantiumForkBlock = g.config.byzantiumBlock ∧
    s.params.constantinopleForkBlock = g.config.constantinopleBlock ∧
    s.params.constantinopleFixForkBlock = g.config.petersburgBlock ∧
    s.params.istanbulForkBlock = g.config.istanbulBlock := by
  obtain ⟨accounts, rfl⟩ := newAleth_ok_shape network g s h
  exact ⟨rfl, rfl, rfl, rfl, rfl, rfl, rfl⟩

/-- Witness for C8 at the concrete scenario model. -/
theorem aleth_fork_blocks_verbatim_witness :
    scenarioAlethDoc.params.homesteadForkBlock
        = scenarioGenesis.config.homesteadBlock ∧
    scenarioAlethDoc.params.eip150ForkBlock
        = scenarioGenesis.config.eip150Block ∧
    scenarioAlethDoc.params.eip158ForkBlock
        = scenarioGenesis.config.eip158Block ∧
    scenarioAlethDoc.params.byzantiumForkBlock
        = scenarioGenesis.config.byzantiumBlock ∧
    scenarioAlethDoc.params.constantinopleForkBlock
        = scenarioGenesis.config.constantinopleBlock ∧
    scenarioAlethDoc.params.constantinopleFixForkBlock
        = scenarioGenesis.config.petersburgBlock ∧
    scenarioAlethDoc.params.istanbulForkBlock
        = scenarioGenesis.config.istanbulBlock :=
  aleth_fork_blocks_verbatim "net" scenarioGenesis scenarioAlethDoc (by rfl)

/-- Helper: whatever `parityBuild` successfully returns carries the
EIP98 sentinel (the field is assigned `math.MaxInt64` after the fork
setters and never touched again). -/
theorem parityBuild_eip98 (network : String) (g : Genesis)
    (bootnodes : List String) (a b c d : Nat) (s : ParityChainSpec)
    (h : parityBuild network g bootnodes a b c d = .ok s) :
    s.params.eip98Transition = maxInt64 := by
  unfold parityBuild at h
  rcases hi : g.config.istanbulBlock with _ | ist <;>
    rcases hb : g.config.byzantiumBlock with _ | byz <;>
    simp [hi, hb] at h <;> subst h <;> rfl

/-- C9: every document the Format B builder returns has its EIP98
transition field equal to the `math.MaxInt64` sentinel (the dialect's
"never active" convention), regardless of the genesis model. -/
theorem parity_eip98_sentinel (network : String) (g : Genesis)
    (bootnodes : List String) (s : ParityChainSpec)
    (h : newParityChainSpec network g bootnodes = .ok s) :
    s.params.eip98Transition = maxInt64 := by
  obtain ⟨hm, e150, e155, e158, _, _, _, _, _, hcore⟩ :=
    newParity_ok_shape network g bootnodes s h
  exact parityBuild_eip98 network g bootnodes hm e150 e155 e158 s hcore

/-- Witness for C9 at the all-forks model. -/
theorem parity_eip98_sentinel_witness :
    allForksParityDoc.params.eip98Transition = maxInt64 :=
  parity_eip98_sentinel "net" allForksGenesis [] allForksParityDoc (by rfl)

/-- Helper: if any of the four unconditionally dereferenced fork blocks
is nil, the Format B builder ends in the nil-dereference (Go panic)
outcome. -/
theorem newParity_nilDereference (network : String) (g : Genesis)
    (bootnodes : List String) (he : g.config.ethash = true)
    (h : g.config.homesteadBlock = none ∨ g.config.eip150Block = none ∨
         g.config.eip155Block = none ∨ g.config.eip158Block = none) :
    newParityChainSpec network g bootnodes = .error .nilDereference := by
  unfold newParityChainSpec
  rcases h0 : g.config.homesteadBlock with _ | hm <;>
    rcases h1 : g.config.eip150Block with _ | e150 <;>
    rcases h2 : g.config.eip155Block with _ | e155 <;>
    rcases h3 : g.config.eip158Block with _ | e158 <;>
    simp_all

/-- C1 (amended): for every genesis model with the ethash engine whose
Istanbul block is set while Byzantium is nil, the Format A builder
returns the fork-dependency error, the Format C builder returns a
document, and the Format B builder returns the fork-dependency error
provided its four unconditionally dereferenced fork blocks (Homestead,
EIP150, EIP155, EIP158) are all set — otherwise it crashes with a nil
dereference instead of returning the fork-dependency error. -/
theorem istanbul_without_byzantium_outcomes (network : String)
    (g : Genesis) (bootnodes : List String) (i : Nat)
    (he : g.config.ethash = true)
    (hi : g.config.istanbulBlock = some i)
    (hb : g.config.byzantiumBlock = none) :
    newAlethGenesisSpec network g = .error .invalidForkDependency ∧
    (newPyEthereumGenesisSpec network g).isOk = true ∧
    (∀ hm e150 e155 e158, g.config.homesteadBlock = some hm →
      g.config.eip150Block = some e150 → g.config.eip155Block = some e155 →
      g.config.eip158Block = some e158 →
      newParityChainSpec network g bootnodes
        = .error .invalidForkDependency) ∧
    ((g.config.homesteadBlock = none ∨ g.config.eip150Block = none ∨
      g.config.eip155Block = none ∨ g.config.eip158Block = none) →
      newParityChainSpec network g bootnodes = .error .nilDereference) := by
  refine ⟨?_, ?_, ?_, newParity_nilDereference network g bootnodes he⟩
  · simp [newAlethGenesisSpec, he, hi, hb]
  · simp [newPyEthereumGenesisSpec, he, Except.isOk, Except.toBool]
  · intro hm e150 e155 e158 h0 h1 h2 h3
    simp [newParityChainSpec, he, h0, h1, h2, h3, parityBuild, hi, hb]

/-- Witness for C1 at a model with the base forks set, Istanbul at 20
and Byzantium nil. -/
theorem istanbul_without_byzantium_outcomes_witness :
    (baseIstGenesis.config.ethash = true ∧
      baseIstGenesis.config.istanbulBlock = some 20 ∧
      baseIstGenesis.config.byzantiumBlock = none) ∧
    (newAlethGenesisSpec "net" baseIstGenesis
        = .error .invalidForkDependency ∧
      (newPyEthereumGenesisSpec "net" baseIstGenesis).isOk = true ∧
      (∀ hm e150 e155 e158,
        baseIstGenesis.config.homesteadBlock = some hm →
        baseIstGenesis.config.eip150Block = some e150 →
        baseIstGenesis.config.eip155Block = some e155 →
        baseIstGenesis.config.eip158Block = some e158 →
        newParityChainSpec "net" baseIstGenesis []
          = .error .invalidForkDependency) ∧
      ((baseIstGenesis.config.homesteadBlock = none ∨
        baseIstGenesis.config.eip150Block = none ∨
        baseIstGenesis.config.eip155Block = none ∨
        baseIstGenesis.config.eip158Block = none) →
        newParityChainSpec "net" baseIstGenesis []
          = .error .nilDereference)) :=
  ⟨⟨rfl, rfl, rfl⟩,
    istanbul_without_byzantium_outcomes "net" baseIstGenesis [] 20
      rfl rfl rfl⟩

/-- C1 counterexample: at the concrete model with the ethash engine,
Istanbul at 20 and every other fork nil, the Format B builder does not
return the fork-dependency error the claim asserts — it crashes with a
nil dereference of the homestead block. -/
theorem parity_istanbul_without_byzantium_nil_dereference :
    newParityChainSpec "net" istOnlyGenesis [] = .error .nilDereference ∧
    newParityChainSpec "net" istOnlyGenesis []
      ≠ .error .invalidForkDependency := by
  have hval : newParityChainSpec "net" istOnlyGenesis []
      = .error .nilDereference := by rfl
  refine ⟨hval, ?_⟩
  rw [hval]
  intro hcontra
  injection hcontra with hx
  exact absurd hx (by decide)

/-- Helper: the reward and bomb-delay schedules of a successful
`parityBuild` with Byzantium and Constantinople both active at
distinct nonzero blocks. -/
theorem parityBuild_schedules (network : String) (g : Genesis)
    (bootnodes : List String) (a b c d byzB constB : Nat)
    (s : ParityChainSpec)
    (hb : g.config.byzantiumBlock = some byzB)
    (hc : g.config.constantinopleBlock = some constB)
    (hb0 : byzB ≠ 0) (hc0 : constB ≠ 0) (hbc : byzB ≠ constB)
    (h : parityBuild network g bootnodes a b c d = .ok s) :
    mapLookup s.engine.blockReward 0 = some frontierBlockReward ∧
    mapLookup s.engine.difficultyBombDelays 0 = none ∧
    mapLookup s.engine.blockReward byzB = some byzantiumBlockReward ∧
    mapLookup s.engine.difficultyBombDelays byzB = some 3000000 ∧
    mapLookup s.engine.blockReward constB = some constantinopleBlockReward ∧
    mapLookup s.engine.difficultyBombDelays constB = some 2000000 := by
  unfold parityBuild at h
  rcases hi : g.config.istanbulBlock with _ | ist <;>
    rcases hp : g.config.petersburgBlock with _ | pet <;>
    simp [hi, hp, hb, hc] at h <;>
    rw [← h] <;>
    simp [ParityChainSpec.setByzantium, ParityChainSpec.setConstantinople,
      ParityChainSpec.setConstantinopleFix, ParityChainSpec.setIstanbul,
      mapLookup, mapInsert, hb0, hc0, hbc,
      Ne.symm hb0, Ne.symm hc0, Ne.symm hbc]

/-- C4 (amended): the Format B builder seeds the block-reward map with
one base entry keyed by block 0; the difficulty-bomb-delay map starts
empty (no block-0 seed); then each activated major fork (Byzantium,
Constantinople) adds one entry to each map keyed by its activation
block. -/
theorem parity_reward_and_bomb_delay_schedules (network : String)
    (g : Genesis) (bootnodes : List String) (byzB constB : Nat)
    (s : ParityChainSpec)
    (hb : g.config.byzantiumBlock = some byzB)
    (hc : g.config.constantinopleBlock = some constB)
    (hb0 : byzB ≠ 0) (hc0 : constB ≠ 0) (hbc : byzB ≠ constB)
    (h : newParityChainSpec network g bootnodes = .ok s) :
    mapLookup s.engine.blockReward 0 = some frontierBlockReward ∧
    mapLookup s.engine.difficultyBombDelays 0 = none ∧
    mapLookup s.engine.blockReward byzB = some byzantiumBlockReward ∧
    mapLookup s.engine.difficultyBombDelays byzB = some 3000000 ∧
    mapLookup s.engine.blockReward constB = some constantinopleBlockReward ∧
    mapLookup s.engine.difficultyBombDelays constB = some 2000000 := by
  obtain ⟨hm, e150, e155, e158, _, _, _, _, _, hcore⟩ :=
    newParity_ok_shape network g bootnodes s h
  exact parityBuild_schedules network g bootnodes hm e150 e155 e158
    byzB constB s hb hc hb0 hc0 hbc hcore

/-- Witness for C4 at the all-forks model (Byzantium 10,
Constantinople 15). -/
theorem parity_reward_and_bomb_delay_schedules_witness :
    (allForksGenesis.config.byzantiumBlock = some 10 ∧
      allForksGenesis.config.constantinopleBlock = some 15 ∧
      (10 : Nat) ≠ 0 ∧ (15 : Nat) ≠ 0 ∧ (10 : Nat) ≠ 15) ∧
    (mapLookup allForksParityDoc.engine.blockReward 0
        = some frontierBlockReward ∧
      mapLookup allForksParityDoc.engine.difficultyBombDelays 0 = none ∧
      mapLookup allForksParityDoc.engine.blockReward 10
        = some byzantiumBlockReward ∧
      mapLookup allForksParityDoc.engine.difficultyBombDelays 10
        = some 3000000 ∧
      mapLookup allForksParityDoc.engine.blockReward 15
        = some constantinopleBlockReward ∧
      mapLookup allForksParityDoc.engine.difficultyBombDelays 15
        = some 2000000) :=
  ⟨⟨rfl, rfl, by decide, by decide, by decide⟩,
    parity_reward_and_bomb_delay_schedules "net" allForksGenesis [] 10 15
      allForksParityDoc rfl rfl (by decide) (by decide) (by decide)
      (by rfl)⟩

/-- C4 counterexample: in the document built from the all-forks model,
the difficulty-bomb-delay map has no entry keyed by block 0 (while the
block-reward map does), contradicting the claim that both maps are
seeded with base entries keyed by block 0. -/
theorem parity_bomb_delay_not_seeded_at_zero :
    (newParityChainSpec "net" allForksGenesis []).toOption.map
        (fun s => (mapLookup s.engine.difficultyBombDelays 0,
                   mapLookup s.engine.blockReward 0))
      = some (none, some frontierBlockReward) := by decide

/-- C3: when Byzantium and Istanbul are both scheduled, the addresses
written by both precompile phases (6 and 7 for Format A; 6, 7 and 8 for
Format B) hold the Istanbul-phase definition in the returned document —
the later `setPrecompile` call wholesale-replaces the earlier entry —
and that definition differs from the Byzantium-phase one. -/
theorem istanbul_phase_overwrites_byzantium (network : String)
    (g : Genesis) (bootnodes : List String) (b i : Nat)
    (hb : g.config.byzantiumBlock = some b)
    (hi : g.config.istanbulBlock = some i) :
    (∀ s, newAlethGenesisSpec network g = .ok s →
      alethPrecompiledAt s 6 = some (alethIstanbul6 b) ∧
      alethPrecompiledAt s 7 = some (alethIstanbul7 b)) ∧
    alethIstanbul6 b ≠ alethByzantium6 b ∧
    alethIstanbul7 b ≠ alethByzantium7 b ∧
    (∀ s, newParityChainSpec network g bootnodes = .ok s →
      parityBuiltinAt s 6 = some (parityIstanbul6 b i) ∧
      parityBuiltinAt s 7 = some (parityIstanbul7 b i) ∧
      parityBuiltinAt s 8 = some (parityIstanbul8 b i)) ∧
    parityIstanbul6 b i ≠ parityByzantium6 b ∧
    parityIstanbul7 b i ≠ parityByzantium7 b ∧
    parityIstanbul8 b i ≠ parityByzantium8 b := by
  refine ⟨?_, by simp [alethIstanbul6, alethByzantium6],
    by simp [alethIstanbul7, alethByzantium7], ?_,
    by simp [parityIstanbul6, parityByzantium6],
    by simp [parityIstanbul7, parityByzantium7],
    by simp [parityIstanbul8, parityByzantium8]⟩
  · intro s hs
    rcases he : g.config.ethash with _ | _
    · simp [newAlethGenesisSpec, he] at hs
    · simp [newAlethGenesisSpec, he, hb, hi] at hs
      subst hs
      constructor <;>
        simp [alethPrecompiledAt, mkAlethSpec, alethIstanbulPrecompiles,
          setPrecompileA]
  · intro s hs
    obtain ⟨hm, e150, e155, e158, _, _, _, _, _, hcore⟩ :=
      newParity_ok_shape network g bootnodes s hs
    unfold parityBuild at hcore
    simp [hb, hi] at hcore
    subst hcore
    refine ⟨?_, ?_, ?_⟩ <;>
      simp [parityBuiltinAt, parityIstanbulPrecompiles, setPrecompileP]

/-- Witness for C3 at the all-forks model (Byzantium 10, Istanbul 20). -/
theorem istanbul_phase_overwrites_byzantium_witness :
    (allForksGenesis.config.byzantiumBlock = some 10 ∧
      allForksGenesis.config.istanbulBlock = some 20) ∧
    ((∀ s, newAlethGenesisSpec "net" allForksGenesis = .ok s →
        alethPrecompiledAt s 6 = some (alethIstanbul6 10) ∧
        alethPrecompiledAt s 7 = some (alethIstanbul7 10)) ∧
      alethIstanbul6 10 ≠ alethByzantium6 10 ∧
      alethIstanbul7 10 ≠ alethByzantium7 10 ∧
      (∀ s, newParityChainSpec "net" allForksGenesis [] = .ok s →
        parityBuiltinAt s 6 = some (parityIstanbul6 10 20) ∧
        parityBuiltinAt s 7 = some (parityIstanbul7 10 20) ∧
        parityBuiltinAt s 8 = some (parityIstanbul8 10 20)) ∧
      parityIstanbul6 10 20 ≠ parityByzantium6 10 ∧
      parityIstanbul7 10 20 ≠ parityByzantium7 10 ∧
      parityIstanbul8 10 20 ≠ parityByzantium8 10) :=
  ⟨⟨rfl, rfl⟩,
    istanbul_phase_overwrites_byzantium "net" allForksGenesis [] 10 20
      rfl rfl⟩

/-- C2 (amended): for models with the ethash engine and no fork
activated among Byzantium/Constantinople/Petersburg/Istanbul: Format A
returns a document whose precompiled entries are exactly the four
unconditional ones (ecrecover, sha256, ripemd160, identity at addresses
1-4); Format C returns a document (its schema has no precompile table;
the allocation is copied verbatim); Format B crashes with a nil
dereference when any of its four unconditionally dereferenced fork
blocks is nil — and when they are all set it returns a document whose
builtin entries are exactly the four unconditional ones. -/
theorem no_forks_precompiles (network : String) (g : Genesis)
    (bootnodes : List String) (he : g.config.ethash = true)
    (hb : g.config.byzantiumBlock = none)
    (hco : g.config.constantinopleBlock = none)
    (hp : g.config.petersburgBlock = none)
    (hi : g.config.istanbulBlock = none) :
    ((newAlethGenesisSpec network g).isOk = true ∧
      ∀ s, newAlethGenesisSpec network g = .ok s →
        ((alethPrecompiledAt s 1).map (fun bn => bn.name) = some "ecrecover" ∧
         (alethPrecompiledAt s 2).map (fun bn => bn.name) = some "sha256" ∧
         (alethPrecompiledAt s 3).map (fun bn => bn.name) = some "ripemd160" ∧
         (alethPrecompiledAt s 4).map (fun bn => bn.name) = some "identity") ∧
        ∀ a, (alethPrecompiledAt s a).isSome = true ↔
          a = 1 ∨ a = 2 ∨ a = 3 ∨ a = 4) ∧
    ((newPyEthereumGenesisSpec network g).isOk = true ∧
      ∀ d, newPyEthereumGenesisSpec network g = .ok d → d.alloc = g.alloc) ∧
    (∀ hm e150 e155 e158, g.config.homesteadBlock = some hm →
      g.config.eip150Block = some e150 → g.config.eip155Block = some e155 →
      g.config.eip158Block = some e158 →
      (newParityChainSpec network g bootnodes).isOk = true) ∧
    ((g.config.homesteadBlock = none ∨ g.config.eip150Block = none ∨
      g.config.eip155Block = none ∨ g.config.eip158Block = none) →
      newParityChainSpec network g bootnodes = .error .nilDereference) ∧
    (∀ s, newParityChainSpec network g bootnodes = .ok s →
      ((parityBuiltinAt s 1).map (fun bn => bn.name) = some "ecrecover" ∧
       (parityBuiltinAt s 2).map (fun bn => bn.name) = some "sha256" ∧
       (parityBuiltinAt s 3).map (fun bn => bn.name) = some "ripemd160" ∧
       (parityBuiltinAt s 4).map (fun bn => bn.name) = some "identity") ∧
      ∀ a, (parityBuiltinAt s a).isSome = true ↔
        a = 1 ∨ a = 2 ∨ a = 3 ∨ a = 4) := by
  refine ⟨⟨?_, ?_⟩, ⟨?_, ?_⟩, ?_, newParity_nilDereference network g bootnodes he, ?_⟩
  · simp [newAlethGenesisSpec, he, hi, hb, Except.isOk, Except.toBool]
  · intro s hs
    simp [newAlethGenesisSpec, he, hi, hb] at hs
    subst hs
    constructor
    · refine ⟨?_, ?_, ?_, ?_⟩ <;>
        simp [alethPrecompiledAt, mkAlethSpec, alethFrontierPrecompiles,
          setPrecompileA]
    · intro a
      by_cases h1 : a = 1
      · subst h1
        simp [alethPrecompiledAt, mkAlethSpec, alethFrontierPrecompiles,
          setPrecompileA]
      by_cases h2 : a = 2
      · subst h2
        simp [alethPrecompiledAt, mkAlethSpec, alethFrontierPrecompiles,
          setPrecompileA]
      by_cases h3 : a = 3
      · subst h3
        simp [alethPrecompiledAt, mkAlethSpec, alethFrontierPrecompiles,
          setPrecompileA]
      by_cases h4 : a = 4
      · subst h4
        simp [alethPrecompiledAt, mkAlethSpec, alethFrontierPrecompiles,
          setPrecompileA]
      · simp [alethPrecompiledAt, mkAlethSpec, alethFrontierPrecompiles,
          setPrecompileA, h1, h2, h3, h4, alethAllocAccounts_precompiled]
  · simp [newPyEthereumGenesisSpec, he, Except.isOk, Except.toBool]
  · intro d hd
    simp [newPyEthereumGenesisSpec, he] at hd
    subst hd
    rfl
  · intro hm e150 e155 e158 h0 h1 h2 h3
    simp [newParityChainSpec, he, h0, h1, h2, h3, parityBuild, hb, hi,
      Except.isOk, Except.toBool]
  · intro s hs
    obtain ⟨hm, e150, e155, e158, _, _, _, _, _, hcore⟩ :=
      newParity_ok_shape network g bootnodes s hs
    unfold parityBuild at hcore
    simp [hb, hi] at hcore
    subst hcore
    constructor
    · refine ⟨?_, ?_, ?_, ?_⟩ <;>
        simp [parityBuiltinAt, parityFrontierPrecompiles, setPrecompileP]
    · intro a
      by_cases h1 : a = 1
      · subst h1
        simp [parityBuiltinAt, parityFrontierPrecompiles, setPrecompileP]
      by_cases h2 : a = 2
      · subst h2
        simp [parityBuiltinAt, parityFrontierPrecompiles, setPrecompileP]
      by_cases h3 : a = 3
      · subst h3
        simp [parityBuiltinAt, parityFrontierPrecompiles, setPrecompileP]
      by_cases h4 : a = 4
      · subst h4
        simp [parityBuiltinAt, parityFrontierPrecompiles, setPrecompileP]
      · simp [parityBuiltinAt, parityFrontierPrecompiles, setPrecompileP,
          h1, h2, h3, h4, parityAllocAccounts_builtin]

/-- Witness for C2 at the base-forks-only model. -/
theorem no_forks_precompiles_witness :
    (baseOnlyGenesis.config.ethash = true ∧
      baseOnlyGenesis.config.byzantiumBlock = none ∧
      baseOnlyGenesis.config.constantinopleBlock = none ∧
      baseOnlyGenesis.config.petersburgBlock = none ∧
      baseOnlyGenesis.config.istanbulBlock = none) ∧
    (((newAlethGenesisSpec "net" baseOnlyGenesis).isOk = true ∧
      ∀ s, newAlethGenesisSpec "net" baseOnlyGenesis = .ok s →
        ((alethPrecompiledAt s 1).map (fun bn => bn.name) = some "ecrecover" ∧
         (alethPrecompiledAt s 2).map (fun bn => bn.name) = some "sha256" ∧
         (alethPrecompiledAt s 3).map (fun bn => bn.name) = some "ripemd160" ∧
         (alethPrecompiledAt s 4).map (fun bn => bn.name) = some "identity") ∧
        ∀ a, (alethPrecompiledAt s a).isSome = true ↔
          a = 1 ∨ a = 2 ∨ a = 3 ∨ a = 4) ∧
    ((newPyEthereumGenesisSpec "net" baseOnlyGenesis).isOk = true ∧
      ∀ d, newPyEthereumGenesisSpec "net" baseOnlyGenesis = .ok d →
        d.alloc = baseOnlyGenesis.alloc) ∧
    (∀ hm e150 e155 e158, baseOnlyGenesis.config.homesteadBlock = some hm →
      baseOnlyGenesis.config.eip150Block = some e150 →
      baseOnlyGenesis.config.eip155Block = some e155 →
      baseOnlyGenesis.config.eip158Block = some e158 →
      (newParityChainSpec "net" baseOnlyGenesis []).isOk = true) ∧
    ((baseOnlyGenesis.config.homesteadBlock = none ∨
      baseOnlyGenesis.config.eip150Block = none ∨
      baseOnlyGenesis.config.eip155Block = none ∨
      baseOnlyGenesis.config.eip158Block = none) →
      newParityChainSpec "net" baseOnlyGenesis [] = .error .nilDereference) ∧
    (∀ s, newParityChainSpec "net" baseOnlyGenesis [] = .ok s →
      ((parityBuiltinAt s 1).map (fun bn => bn.name) = some "ecrecover" ∧
       (parityBuiltinAt s 2).map (fun bn => bn.name) = some "sha256" ∧
       (parityBuiltinAt s 3).map (fun bn => bn.name) = some "ripemd160" ∧
       (parityBuiltinAt s 4).map (fun bn => bn.name) = some "identity") ∧
      ∀ a, (parityBuiltinAt s a).isSome = true ↔
        a = 1 ∨ a = 2 ∨ a = 3 ∨ a = 4)) :=
  ⟨⟨rfl, rfl, rfl, rfl, rfl⟩,
    no_forks_precompiles "net" baseOnlyGenesis [] rfl rfl rfl rfl rfl⟩

/-- C2 counterexample: on the model with every fork field nil the
Format B builder does not produce a document at all — it crashes with a
nil dereference of the homestead block. -/
theorem parity_no_forks_nil_dereference :
    newParityChainSpec "net" noForksGenesis [] = .error .nilDereference ∧
    (newParityChainSpec "net" noForksGenesis []).isOk = false :=
  ⟨by rfl, by rfl⟩

/-- C10: `setPrecompile` at an address already present in the accounts
map (for example a prefunded allocation at a precompile address)
replaces only the precompiled/builtin definition and leaves the balance
and nonce of that account unchanged, and leaves every other address
untouched — in both the Format A and the Format B dialect. -/
theorem set_precompile_preserves_balance_nonce
    (mA : Nat → Option AlethAccount) (mP : Nat → Option ParityAccount)
    (addr : Nat) (dA : AlethBuiltin) (dP : ParityBuiltin)
    (acctA : AlethAccount) (acctP : ParityAccount)
    (hA : mA addr = some acctA) (hP : mP addr = some acctP) :
    setPrecompileA mA addr dA addr
      = some { acctA with precompiled := some dA } ∧
    (∀ a, a ≠ addr → setPrecompileA mA addr dA a = mA a) ∧
    setPrecompileP mP addr dP addr
      = some { acctP with builtin := some dP } ∧
    (∀ a, a ≠ addr → setPrecompileP mP addr dP a = mP a) :=
  ⟨by simp [setPrecompileA, hA],
   fun a ha => by simp [setPrecompileA, ha],
   by simp [setPrecompileP, hP],
   fun a ha => by simp [setPrecompileP, ha]⟩

/-- Witness for C10 on concrete maps holding a prefunded account at the
precompile address 1. -/
theorem set_precompile_preserves_balance_nonce_witness :
    (exampleAlethAccounts 1
        = some { balance := some 100, nonce := 7, precompiled := none } ∧
      exampleParityAccounts 1
        = some { balance := 100, nonce := 7, builtin := none }) ∧
    (setPrecompileA exampleAlethAccounts 1 (alethIstanbul9 20) 1
        = some { balance := some 100, nonce := 7,
                 precompiled := some (alethIstanbul9 20) } ∧
      (∀ a, a ≠ 1 →
        setPrecompileA exampleAlethAccounts 1 (alethIstanbul9 20) a
          = exampleAlethAccounts a) ∧
      setPrecompileP exampleParityAccounts 1 (parityIstanbul9 20) 1
        = some { balance := 100, nonce := 7,
                 builtin := some (parityIstanbul9 20) } ∧
      (∀ a, a ≠ 1 →
        setPrecompileP exampleParityAccounts 1 (parityIstanbul9 20) a
          = exampleParityAccounts a)) :=
  ⟨⟨rfl, rfl⟩,
    set_precompile_preserves_balance_nonce exampleAlethAccounts
      exampleParityAccounts 1 (alethIstanbul9 20) (parityIstanbul9 20)
      { balance := some 100, nonce := 7, precompiled := none }
      { balance := 100, nonce := 7, builtin := none } rfl rfl⟩

end PuppethGenesis
